import Mathlib

/-!
# Verification of the ISC dhclient DHCPv4 client state machine

A shallow embedding of the parts of `dhcp-4.4.2-P1/client/dhclient.c` that the
specification's claims are about: the DHCPACK lease-time computation, the
OFFER/ACK/NAK packet handlers, lease commitment (`bind_lease`), the lease-store
write counter, and the RELEASE path.

Machine times (`TIME` = `time_t` in the source) are modelled as natural
numbers: every value flowing through the embedded code paths is provably
non-negative (lease times enter through `getULong`, a 32-bit unsigned read),
and divisions with non-negative operands agree between C's truncating division
and `Nat` division.  Overflowing additions of `cur_time` are modelled by
explicit saturation (see `satAdd`).

Randomness (`random()`) and configurator exit statuses (`script_go`) are
modelled as explicit input streams consumed by the handlers, so every theorem
quantifies over them.
-/

set_option linter.unusedVariables false

/-- Modelled from the spec: the sentinel maximum time value (`TIME_MAX`).  Its
definition lives in the package headers, which are outside this repository;
the spec says only that overflowing time fields "saturate to a sentinel
maximum".  It is modelled here as the largest signed 64-bit value, matching a
64-bit `time_t`. -/
def TIME_MAX : Nat := 2 ^ 63 - 1

/-- The source adds `cur_time` to a lease time offset and then checks
`if (x < cur_time) x = TIME_MAX;` — on a 64-bit `time_t` with both operands
non-negative and at most `TIME_MAX`, the wrapped sum is negative exactly when
the mathematical sum exceeds `TIME_MAX`, so the net effect is saturating
addition (dhclient.c:1491-1500). -/
def satAdd (a cur : Nat) : Nat :=
  if a + cur > TIME_MAX then TIME_MAX else a + cur

/-- The three time fields of a lease as computed on DHCPACK. -/
structure AckTimes where
  expiry : Nat
  renewal : Nat
  rebind : Nat
  deriving Repr, DecidableEq

/-- Embedding of the DHCPACK time-field computation, dhclient.c:1385-1500.

Inputs `L`, `R`, `B` are the evaluated `DHO_DHCP_LEASE_TIME`,
`DHO_DHCP_RENEWAL_TIME` and `DHO_DHCP_REBINDING_TIME` options: `none` models
an absent option, a failed `evaluate_option_cache`, or data shorter than four
bytes (all of which the source maps to `0`); `some v` models a successful
`getULong` read, so `v < 2^32` in every reachable call.  `rand` is the value
returned by `random()` at line 1454.  Returns `none` when the lease is
rejected for lack of an expiry time (line 1401), mirroring the early return.

The source's two saturation checks on negative values (lines 1426-1427 and
1448-1449) cannot fire here: with a 64-bit `time_t` a 32-bit unsigned option
value is never negative, and the computed renewal is at least 1. -/
def ackComputeTimes (L R B : Option Nat) (rand cur : Nat) : Option AckTimes :=
  let expiry := L.getD 0
  if expiry = 0 then
    none
  else
    let renewal := R.getD 0
    let renewal := if renewal = 0 then expiry / 2 + 1 else renewal
    -- line 1452: randomize only while the product cannot overflow
    let renewal :=
      if renewal ≤ TIME_MAX / 3 - 3 then
        (renewal * 3 + 3) / 4 + (rand % renewal + 3) / 4
      else renewal
    let rebind := B.getD 0
    -- lines 1471-1478: default the rebind time from the expiry
    let rebind :=
      if rebind = 0 then
        if expiry ≤ TIME_MAX / 7 then expiry * 7 / 8 else expiry / 8 * 7
      else rebind
    -- lines 1482-1489: keep the randomized renewal below the rebind time
    let renewal :=
      if renewal > rebind then
        if rebind ≤ TIME_MAX / 3 then rebind * 3 / 4 else rebind / 4 * 3
      else renewal
    some { expiry := satAdd expiry cur
           renewal := satAdd renewal cur
           rebind := satAdd rebind cur }

/-- The ACK time computation as the spec states it (§4.5 "Time field
computation on ACK", steps 2-6), written from the spec's words for comparison
with `ackComputeTimes`: if R is absent, `R = L/2 + 1`; then
`R = (3R + 3)/4 + (rand() mod R + 3)/4`; if B is absent, `B = L * 7/8`;
if `R > B` after the jitter, `R = 3B/4`; finally the current time is added to
all three fields, saturating to `TIME_MAX`. -/
def ackTimesSpec (l : Nat) (R B : Option Nat) (rand cur : Nat) : AckTimes :=
  let r0 := match R with
            | none => l / 2 + 1
            | some v => v
  let r1 := (3 * r0 + 3) / 4 + (rand % r0 + 3) / 4
  let b0 := match B with
            | none => l * 7 / 8
            | some v => v
  let r2 := if r1 > b0 then 3 * b0 / 4 else r1
  { expiry := satAdd l cur, renewal := satAdd r2 cur, rebind := satAdd b0 cur }

/-- The chain `renewal ≤ rebind ≤ expiry`, the committed-lease invariant of §8.1. -/
def leaseChainOK (t : AckTimes) : Prop :=
  t.renewal ≤ t.rebind ∧ t.rebind ≤ t.expiry

instance (t : AckTimes) : Decidable (leaseChainOK t) := by
  unfold leaseChainOK; infer_instance

/-! ## Data model

The client state machine's data, translated from `struct client_state`,
`struct client_lease` and `struct packet` (dhclient.c / dhcpd.h usage visible
in this file).  IPv4 addresses are modelled as natural numbers; hardware
addresses as byte lists.  Externally observable actions (configurator runs,
packets sent, timer arms/cancels, lease deallocations, lease-store writes)
are recorded in an event trace. -/

/-- The client FSM states used by the embedded handlers (`S_*` in the source). -/
inductive DhcpState where
  | S_REBOOTING | S_INIT | S_SELECTING | S_REQUESTING
  | S_BOUND | S_RENEWING | S_REBINDING | S_DECLINED | S_STOPPED
  deriving Repr, DecidableEq

/-- Reason strings passed to `script_init` by the embedded code paths. -/
inductive ScriptReason where
  | BOUND | RENEW | REBIND | REBOOT | EXPIRE | PREINIT | FAIL | TIMEOUT | MEDIUM | RELEASE
  deriving Repr, DecidableEq

/-- Timer callbacks used by the embedded code paths (`add_timeout` /
`cancel_timeout` first arguments). -/
inductive Callback where
  | state_init | state_selecting | state_bound | send_discover | send_request | state_reboot
  deriving Repr, DecidableEq

/-- Outbound DHCP message kinds sent by the embedded code paths. -/
inductive PacketKind where
  | DISCOVER | REQUEST | DECLINE | RELEASE
  deriving Repr, DecidableEq

/-- A client lease (`struct client_lease`).  The option store is reduced to
the fields the embedded handlers read: the three time options (as
`evaluate_option_cache` + `getULong` would yield them) and the set of present
option codes (for the `required_options` check in `dhcpoffer`).  `server_name`,
`filename` and the medium are not read by any embedded path. -/
structure ClientLease where
  address : Nat
  leaseTimeOpt : Option Nat
  renewalOpt : Option Nat
  rebindOpt : Option Nat
  optionCodes : List Nat
  expiry : Nat := 0
  renewal : Nat := 0
  rebind : Nat := 0
  is_bootp : Bool := false
  is_static : Bool := false
  deriving Repr, DecidableEq

/-- The observable actions of the embedded code.  `destroyLease` records a
call to `destroy_client_lease` (deallocation); `setState` records an
assignment to `client->state`; `writeLease` a non-static record written by
`write_client_lease`; `rewriteStore` a call to `rewrite_client_leases`;
`processExit` a call to `finish`. -/
inductive Event where
  | script (reason : ScriptReason)
  | sendPacket (kind : PacketKind)
  | addTimeout (cb : Callback) (sec : Nat) (usec : Nat)
  | cancelTimeout (cb : Callback)
  | destroyLease (l : ClientLease)
  | addReject (addr : Nat)
  | writeLease (addr : Nat)
  | rewriteStore
  | setState (s : DhcpState)
  | statePanicEntered
  | processExit (code : Nat)
  deriving Repr, DecidableEq

/-- Per-client configuration (`struct client_config`), restricted to the
fields the embedded paths read.  The modelled configurations carry no media
list (`config->media == NULL`), so the media walks at dhclient.c:2366-2393 and
2720-2733 are skipped, exactly as the source skips them for such configs. -/
structure ClientConfig where
  initial_interval : Nat
  backoff_cutoff : Nat
  timeout : Nat
  reboot_timeout : Nat
  select_interval : Nat
  retry_interval : Nat
  required_options : List Nat
  reject_list : List Nat
  deriving Repr, DecidableEq

/-- The per-client state machine state (`struct client_state`), restricted to
the fields the embedded paths touch.  `last_write = 0` models an unset
`last_write`, as in the source's `!client->last_write` test.  `secs` mirrors
`client->secs` (the cached BOOTP `secs` field). -/
structure ClientState where
  xid : Nat
  state : DhcpState
  active : Option ClientLease := none
  new : Option ClientLease := none
  leases : List ClientLease := []
  offered_leases : List ClientLease := []
  requested_address : Nat := 0
  destination : Nat := 0
  first_sending : Nat := 0
  interval : Nat := 0
  secs : Nat := 0
  last_write : Nat := 0
  config : ClientConfig
  deriving Repr, DecidableEq

/-- An incoming packet as seen by the handlers: the fixed BOOTP header fields
they read (`xid`, `hlen`, `chaddr`, `yiaddr`), the source address
(`packet->client_addr`), the decoded message type (`0` = no DHCP message type
option, i.e. a plain BOOTREPLY), the codec's `options_valid` flag, and the
decoded option fields the handlers evaluate. -/
structure Packet where
  xid : Nat
  hlen : Nat
  chaddr : List Nat
  yiaddr : Nat
  client_addr : Nat
  packet_type : Nat := 0
  options_valid : Bool := true
  leaseTimeOpt : Option Nat := none
  renewalOpt : Option Nat := none
  rebindOpt : Option Nat := none
  optionCodes : List Nat := []
  deriving Repr, DecidableEq

/-- A network interface (`struct interface_info`): its hardware address with
the leading type byte stripped (`hw_address.hbuf[1..]`, of length
`hw_address.hlen - 1`) and the attached client contexts. -/
structure Iface where
  hwAddr : List Nat
  clients : List ClientState
  deriving Repr, DecidableEq

/-- Process-level context: the current time (`cur_tv`), the globals `onetry`
and `decline_wait_time`, and the `MIN_LEASE_WRITE` threshold (a header
constant outside this repository, modelled as a parameter). -/
structure Ctx where
  cur_sec : Nat
  cur_usec : Nat := 0
  onetry : Bool := false
  decline_wait_time : Nat := 10
  min_lease_write : Nat := 15
  deriving Repr, DecidableEq

/-- The ambient effect state threaded through the handlers: the stream of
values `random()` will return, the stream of configurator exit statuses
`script_go` will observe, the append-mode write counter `leases_written`, and
the event trace.  Exhausted streams yield `0`. -/
structure Eff where
  rng : List Nat := []
  script : List Nat := []
  leases_written : Nat := 0
  trace : List Event := []
  deriving Repr, DecidableEq

/-- Consume one `random()` value. -/
def Eff.rand (e : Eff) : Nat × Eff :=
  (e.rng.headD 0, { e with rng := e.rng.tail })

/-- Run the configurator (`script_init` … `script_go`) with the given reason,
recording the invocation and consuming its exit status. -/
def Eff.runScript (e : Eff) (r : ScriptReason) : Nat × Eff :=
  (e.script.headD 0,
   { e with script := e.script.tail, trace := e.trace ++ [Event.script r] })

/-- Record an event. -/
def Eff.emit (e : Eff) (ev : Event) : Eff :=
  { e with trace := e.trace ++ [ev] }

/-- Record several events. -/
def Eff.emitAll (e : Eff) (evs : List Event) : Eff :=
  { e with trace := e.trace ++ evs }

/-- The timer target computed at dhclient.c:1410-1416: half a second after
`cur_tv`, with microsecond carry. -/
def halfSecondLater (sec usec : Nat) : Nat × Nat :=
  let usec' := usec + 500000
  if usec' ≥ 1000000 then (sec + 1, usec' - 1000000) else (sec, usec')

/-- Does the packet's link-layer addressing match the interface?  Mirrors the
guard `(hw_address.hlen - 1 != raw->hlen) || memcmp(&hw_address.hbuf[1],
raw->chaddr, raw->hlen)` shared by `dhcpoffer` (2030-2035), `dhcpack`
(1349-1353) and `dhcpnak` (2280-2284): `memcmp` compares `raw->hlen` bytes and
runs only when the lengths agree. -/
def hwMatch (ifc : Iface) (p : Packet) : Bool :=
  p.hlen = ifc.hwAddr.length && p.chaddr.take p.hlen = ifc.hwAddr

/-- Embedding of `packet_to_lease` (dhclient.c:2144-2265): allocate a lease, zero it, copy
the packet's option state and `yiaddr`.  The vendor-encapsulation and
sname/file overload handling only populate fields no embedded path reads, and
the allocation-failure returns are not modelled (allocation always succeeds
here). -/
def packet_to_lease (p : Packet) : ClientLease :=
  { address := p.yiaddr
    leaseTimeOpt := p.leaseTimeOpt
    renewalOpt := p.renewalOpt
    rebindOpt := p.rebindOpt
    optionCodes := p.optionCodes }

/-! ## Lease store -/

/-- Embedding of `rewrite_client_leases` (dhclient.c:3575-3635): it reopens the store and
re-serializes every lease; the serialization walk touches only the file, so it
is recorded as a single `rewriteStore` event here.  (Its per-client
`last_write` reset at line 3610 is immediately overwritten at line 4084 on the
one embedded path that can trigger a rewrite, `bind_lease`'s write.) -/
def rewrite_client_leases (e : Eff) : Eff :=
  e.emit Event.rewriteStore

/-- Embedding of `write_client_lease` (dhclient.c:3958-4094), reduced to its effects on the
modelled state: the append-mode rewrite threshold (lines 3969-3974: the
counter is post-incremented, tested against 20, and reset after a rewrite),
the static-lease early return (line 3978), and the record write.  Returns the
updated effect state and whether a (non-static) record was written — on that
path and only there the source then sets `client->last_write = cur_time`
(line 4084). -/
def write_client_lease (l : ClientLease) (rewrite : Bool) (e : Eff) : Eff × Bool :=
  let e :=
    if !rewrite then
      if e.leases_written > 20 then
        { rewrite_client_leases e with leases_written := 0 }
      else
        { e with leases_written := e.leases_written + 1 }
    else e
  if l.is_static then
    (e, false)
  else
    (e.emit (Event.writeLease l.address), true)

/-- Embedding of `discard_duplicate` (dhclient.c:2484-2509): remove and destroy the first
lease in the list with the same `is_static` flag and the same address. -/
def discard_duplicate (l : ClientLease) : List ClientLease → List ClientLease × List Event
  | [] => ([], [])
  | c :: rest =>
    if c.is_static = l.is_static ∧ c.address = l.address then
      (rest, [Event.destroyLease c])
    else
      let (r, evs) := discard_duplicate l rest
      (c :: r, evs)

/-- Embedding of `add_to_tail` (dhclient.c:2523-2549): drop any duplicate of the lease from
the list, then append the lease at the tail. -/
def add_to_tail (ls : List ClientLease) (l : ClientLease) : List ClientLease × List Event :=
  let (ls', evs) := discard_duplicate l ls
  (ls' ++ [l], evs)

/-! ## Sending paths -/

/-- The backoff computation of `send_discover` (dhclient.c:2400-2419) for a
configuration without a media list (`increase == 1`): double the interval in
expectation, clamp at the backoff cutoff, and land exactly on the panic point
if the next tick would overshoot it. -/
def discoverInterval (c : ClientState) (cur : Nat) (e : Eff) : Nat × Eff :=
  let s1 : Nat × Eff :=
    if c.interval = 0 then
      (c.config.initial_interval, e)
    else
      (c.interval + e.rand.1 % (2 * c.interval), e.rand.2)
  let s2 : Nat × Eff :=
    if s1.1 > c.config.backoff_cutoff then
      (c.config.backoff_cutoff / 2 + s1.2.rand.1 % c.config.backoff_cutoff, s1.2.rand.2)
    else s1
  let i :=
    if cur + s2.1 > c.first_sending + c.config.timeout then
      c.first_sending + c.config.timeout - cur + 1
    else s2.1
  (i, s2.2)

/-- Microsecond jitter used when arming a timer more than a second away
(dhclient.c:2466-2467, 2873-2875, 1576-1577). -/
def jitterUsec (far : Bool) (cur_usec : Nat) (e : Eff) : Nat × Eff :=
  if far then
    (e.rand.1 % 1000000, e.rand.2)
  else (cur_usec, e)

/-- Embedding of `send_discover` (dhclient.c:2346-2469) for a client whose configuration
has no media list: on panic timeout hand off to `state_panic` (recorded as a
trace marker — no embedded theorem depends on executions that reach it),
otherwise back off, record `secs`, send the DISCOVER and re-arm the
`send_discover` timer. -/
def send_discover (ctx : Ctx) (c : ClientState) (e : Eff) : ClientState × Eff :=
  let elapsed := ctx.cur_sec - c.first_sending
  if elapsed > c.config.timeout then
    (c, e.emit Event.statePanicEntered)
  else
    let (i, e) := discoverInterval c ctx.cur_sec e
    let secs := if elapsed < 65536 then elapsed else 65535
    let e := e.emit (Event.sendPacket PacketKind.DISCOVER)
    let (usec, e) := jitterUsec (decide (i > 1)) ctx.cur_usec e
    let e := e.emit (Event.addTimeout Callback.send_discover (ctx.cur_sec + i) usec)
    ({ c with interval := i, secs := secs }, e)

/-- Embedding of `state_init` (dhclient.c:1223-1242): build a DISCOVER with a fresh random
`xid` (`make_discover`, line 3331), aim at the broadcast address, enter
SELECTING, reset the sending clock and emit the first DISCOVER immediately. -/
def state_init (ctx : Ctx) (c : ClientState) (e : Eff) : ClientState × Eff :=
  let (x, e) := e.rand
  -- make_discover → make_client_options: the requested address tracks the
  -- active lease's address, and is cleared when there is none
  -- (dhclient.c:3294-3296 via 3167-3182)
  let c := { c with xid := x
                    requested_address := (match c.active with
                                          | some a => a.address
                                          | none => 0)
                    destination := 4294967295
                    state := DhcpState.S_SELECTING
                    first_sending := ctx.cur_sec
                    interval := c.config.initial_interval }
  let e := e.emit (Event.setState DhcpState.S_SELECTING)
  send_discover ctx c e

/-- Embedding of `send_request` (dhclient.c:2684-2877) for a client whose configuration has
no media list: fall back to INIT past the reboot timeout, run the EXPIRE/
PREINIT hooks and fall back to INIT when a renewing lease has expired,
otherwise back off (note the `random() >> 2` at lines 2765 and 2774), choose
broadcast or unicast, send the REQUEST and re-arm the `send_request` timer. -/
def send_request (ctx : Ctx) (c : ClientState) (e : Eff) : ClientState × Eff :=
  let elapsed := ctx.cur_sec - c.first_sending
  if (c.state = DhcpState.S_REBOOTING ∨ c.state = DhcpState.S_REQUESTING)
      ∧ elapsed > c.config.reboot_timeout then
    let c := { c with state := DhcpState.S_INIT }
    let e := (e.emit (Event.setState DhcpState.S_INIT)).emit
               (Event.cancelTimeout Callback.send_request)
    state_init ctx c e
  else
    -- lines 2737-2759: in RENEWING/REBINDING/REBOOTING the active lease is
    -- set; its expiry gates the fallback to INIT
    if decide (c.state ≠ DhcpState.S_REQUESTING)
        && (match c.active with
            | some a => decide (ctx.cur_sec > a.expiry)
            | none => false) then
      let (_, e) := e.runScript ScriptReason.EXPIRE
      let (_, e) := e.runScript ScriptReason.PREINIT
      let c := { c with state := DhcpState.S_INIT }
      let e := e.emit (Event.setState DhcpState.S_INIT)
      state_init ctx c e
    else
      let (i, e) :=
        if c.interval = 0 then
          (c.config.initial_interval, e)
        else
          let (r, e) := e.rand
          (c.interval + (r / 4) % (2 * c.interval), e)
      let (i, e) :=
        if i > c.config.backoff_cutoff then
          let (r, e) := e.rand
          (c.config.backoff_cutoff / 2 + (r / 4) % c.config.backoff_cutoff, e)
        else (i, e)
      let i :=
        if decide (c.state ≠ DhcpState.S_REQUESTING)
            && (match c.active with
                | some a => decide (ctx.cur_sec + i > a.expiry)
                | none => false) then
          (match c.active with
           | some a => a.expiry
           | none => 0) - ctx.cur_sec + 1
        else i
      let secs :=
        if c.state = DhcpState.S_REQUESTING then c.secs
        else if elapsed < 65536 then elapsed else 65535
      let e := e.emit (Event.sendPacket PacketKind.REQUEST)
      let (usec, e) := jitterUsec (decide (i > 1)) ctx.cur_usec e
      let e := e.emit (Event.addTimeout Callback.send_request (ctx.cur_sec + i) usec)
      ({ c with interval := i, secs := secs }, e)

/-! ## Commit -/

/-- The configurator reason chosen at dhclient.c:1514-1517 from the state the
machine was in when the ACK arrived. -/
def bindReason : DhcpState → ScriptReason
  | DhcpState.S_REQUESTING => ScriptReason.BOUND
  | DhcpState.S_RENEWING => ScriptReason.RENEW
  | DhcpState.S_REBOOTING => ScriptReason.REBOOT
  | _ => ScriptReason.REBIND

/-- Embedding of `bind_lease` (dhclient.c:1505-1591).  Expects `client->new` to be set (all
callers guarantee it; the source dereferences it unconditionally).  On a
non-zero configurator exit: DECLINE, destroy the tentative lease and either
exit (onetry) or schedule `state_init` after `decline_wait_time` — leaving
state, active lease and the store untouched.  Otherwise: write the lease if
`last_write` allows, move a static active lease to the tail of `leases`
(destroying a non-static one), promote `new` to `active`, arm `state_bound`
at the renewal time and enter BOUND. -/
def bind_lease (ctx : Ctx) (c : ClientState) (e : Eff) : ClientState × Eff :=
  match c.new with
  | none => (c, e)
  | some n =>
    let (status, e) := e.runScript (bindReason c.state)
    if status ≠ 0 then
      -- make_decline → make_client_options records the declined lease's
      -- address as the requested address (dhclient.c:3457 via 3168)
      let c := { c with requested_address := n.address }
      let e := (e.emit (Event.sendPacket PacketKind.DECLINE)).emit (Event.destroyLease n)
      let c := { c with new := none }
      if ctx.onetry then
        (c, e.emit (Event.processExit 2))
      else
        (c, e.emit (Event.addTimeout Callback.state_init
                      (ctx.cur_sec + ctx.decline_wait_time) ctx.cur_usec))
    else
      let (c, e) :=
        if c.last_write = 0 ∨ ctx.cur_sec - c.last_write ≥ ctx.min_lease_write then
          let (e, wrote) := write_client_lease n false e
          (if wrote then { c with last_write := ctx.cur_sec } else c, e)
        else (c, e)
      let (c, e) :=
        match c.active with
        | some a =>
          if a.is_static then
            let (ls, evs) := add_to_tail c.leases a
            ({ c with leases := ls }, e.emitAll evs)
          else
            (c, e.emit (Event.destroyLease a))
        | none => (c, e)
      let c := { c with active := some n, new := none }
      let (usec, e) := jitterUsec (decide (n.renewal - ctx.cur_sec > 1)) ctx.cur_usec e
      let e := e.emit (Event.addTimeout Callback.state_bound n.renewal usec)
      let c := { c with state := DhcpState.S_BOUND }
      let e := e.emit (Event.setState DhcpState.S_BOUND)
      (c, e)

/-! ## Receive handlers -/

/-- Embedding of `state_selecting` (dhclient.c:1249-1329): cancel the selection timers,
keep the first offered lease and destroy the rest; with no offers go back to
INIT.  A BOOTP offer is taken immediately: the made-up time fields of lines
1301-1305 (note the `+=` on `renewal` and `rebind`), REQUESTING, and a direct
`bind_lease`.  A DHCP offer becomes a broadcast REQUEST: `make_request`
records the requested address (line 3167 via 3375-3381), the picked lease is
destroyed (its contents return in the ACK), and the first REQUEST goes out. -/
def state_selecting (ctx : Ctx) (c : ClientState) (e : Eff) : ClientState × Eff :=
  let e := (e.emit (Event.cancelTimeout Callback.state_selecting)).emit
             (Event.cancelTimeout Callback.send_discover)
  let picked := c.offered_leases.head?
  let e := e.emitAll ((c.offered_leases.tail).map Event.destroyLease)
  let c := { c with offered_leases := [] }
  match picked with
  | none =>
    let c := { c with state := DhcpState.S_INIT }
    let e := e.emit (Event.setState DhcpState.S_INIT)
    state_init ctx c e
  | some picked =>
    if picked.is_bootp then
      let c := { c with
        new := some { picked with
          expiry := ctx.cur_sec + 12000
          renewal := picked.renewal + (ctx.cur_sec + 8000)
          rebind := picked.rebind + (ctx.cur_sec + 10000) } }
      let c := { c with state := DhcpState.S_REQUESTING }
      let e := e.emit (Event.setState DhcpState.S_REQUESTING)
      bind_lease ctx c e
    else
      let c := { c with destination := 4294967295
                        state := DhcpState.S_REQUESTING
                        first_sending := ctx.cur_sec
                        interval := c.config.initial_interval }
      let e := e.emit (Event.setState DhcpState.S_REQUESTING)
      -- make_request (line 1321): requested address from the picked lease,
      -- packet xid from client->xid, copied back at line 1322
      let c := { c with requested_address := picked.address }
      let e := e.emit (Event.destroyLease picked)
      send_request ctx c e

/-- The body of `dhcpoffer` (dhclient.c:2042-2139) once the transaction-id,
state and hardware-address guard has passed: the `required_options` screen,
duplicate-offer suppression by `yiaddr`, BOOTP marking (line 2097), insertion
at the head for a re-offer of the requested address or at the tail otherwise,
and the select-interval timing decision. -/
def dhcpofferBody (ctx : Ctx) (p : Packet) (c : ClientState) (e : Eff) : ClientState × Eff :=
  if (c.config.required_options.filter (fun code => !p.optionCodes.contains code)) ≠ [] then
    (c, e)
  else if c.offered_leases.any (fun l => l.address = p.yiaddr) then
    (c, e)
  else
    let lease := packet_to_lease p
    let lease :=
      if !p.options_valid || p.packet_type = 0 then
        { lease with is_bootp := true }
      else lease
    let stop_selecting := c.first_sending + c.config.select_interval
    let c :=
      if lease.address = c.requested_address then
        { c with offered_leases := lease :: c.offered_leases }
      else
        { c with offered_leases := c.offered_leases ++ [lease] }
    if stop_selecting ≤ ctx.cur_sec then
      state_selecting ctx c e
    else
      let e := (e.emit (Event.addTimeout Callback.state_selecting stop_selecting ctx.cur_usec)).emit
                 (Event.cancelTimeout Callback.send_discover)
      (c, e)

/-- The body of `dhcpack` (dhclient.c:1360-1503) once the transaction-id and
hardware-address guard has passed: the receptive-state check, lease
construction, cancellation of the REQUEST retransmit timer, the time-field
computation, the missing-lease-time rejection (quench the server, return to
INIT in half a second — `add_reject` at 5465-5491 prepends the packet's
source address to the interface's reject list; the modelled worlds attach one
client per interface, so `packet->interface->client->config` is this client's
config), and finally `bind_lease`.

`random()` for the renewal jitter is consumed exactly when the source calls
it: the jitter guard at line 1452 holds whenever the option values are 32-bit
reads, which covers every reachable call. -/
def dhcpackBody (ctx : Ctx) (p : Packet) (c : ClientState) (e : Eff) : ClientState × Eff :=
  if c.state ≠ DhcpState.S_REBOOTING ∧ c.state ≠ DhcpState.S_REQUESTING
      ∧ c.state ≠ DhcpState.S_RENEWING ∧ c.state ≠ DhcpState.S_REBINDING then
    (c, e)
  else
    let lease := packet_to_lease p
    let c := { c with new := some lease }
    let e := e.emit (Event.cancelTimeout Callback.send_request)
    let expiry := p.leaseTimeOpt.getD 0
    if expiry = 0 then
      let c := { c with new := some { lease with expiry := 0 }
                        config := { c.config with
                          reject_list := p.client_addr :: c.config.reject_list } }
      let e := e.emit (Event.addReject p.client_addr)
      let tv := halfSecondLater ctx.cur_sec ctx.cur_usec
      let e := e.emit (Event.addTimeout Callback.state_init tv.1 tv.2)
      (c, e)
    else
      let (r, e) := e.rand
      match ackComputeTimes p.leaseTimeOpt p.renewalOpt p.rebindOpt r ctx.cur_sec with
      | none => (c, e)   -- unreachable: expiry ≠ 0
      | some t =>
        let c := { c with new := some { lease with
          expiry := t.expiry, renewal := t.renewal, rebind := t.rebind } }
        bind_lease ctx c e

/-- The body of `dhcpnak` (dhclient.c:2291-2340) once the transaction-id and
hardware-address guard has passed: the receptive-state check, the no-active-
lease early return, the EXPIRE hook, destruction of the active lease,
cancellation of the REQUEST retransmit timer, the PREINIT hook, and the
transition to INIT (which immediately emits a fresh DISCOVER). -/
def dhcpnakBody (ctx : Ctx) (p : Packet) (c : ClientState) (e : Eff) : ClientState × Eff :=
  if c.state ≠ DhcpState.S_REBOOTING ∧ c.state ≠ DhcpState.S_REQUESTING
      ∧ c.state ≠ DhcpState.S_RENEWING ∧ c.state ≠ DhcpState.S_REBINDING then
    (c, e)
  else
    match c.active with
    | none => (c, e)
    | some a =>
      let (_, e) := e.runScript ScriptReason.EXPIRE
      let e := e.emit (Event.destroyLease a)
      let c := { c with active := none }
      let e := e.emit (Event.cancelTimeout Callback.send_request)
      let (_, e) := e.runScript ScriptReason.PREINIT
      let c := { c with state := DhcpState.S_INIT }
      let e := e.emit (Event.setState DhcpState.S_INIT)
      state_init ctx c e

/-- Replace the first client matching the predicate (the handlers mutate the
matched `client` in place; the rest of the interface's client list is
untouched). -/
def replaceFirst (q : ClientState → Bool) (c' : ClientState) : List ClientState → List ClientState
  | [] => []
  | c :: cs => if q c then c' :: cs else c :: replaceFirst q c' cs

/-- The shared entry guard of the three handlers: find a client whose `xid`
matches the packet's (dhclient.c:1345-1348, 2024-2026, 2274-2276), drop the
packet when none matches or the link-layer addressing mismatches, and
otherwise run the body on the matched client.  `extraGuard` is `dhcpoffer`'s
additional `state != S_SELECTING` test, which the source folds into the same
`if`. -/
def runHandler (body : Ctx → Packet → ClientState → Eff → ClientState × Eff)
    (extraGuard : ClientState → Bool)
    (ctx : Ctx) (p : Packet) (ifc : Iface) (e : Eff) : Iface × Eff :=
  match ifc.clients.find? (fun c => c.xid = p.xid) with
  | none => (ifc, e)
  | some c =>
    if !hwMatch ifc p then
      (ifc, e)
    else if !extraGuard c then
      (ifc, e)
    else
      let (c', e') := body ctx p c e
      ({ ifc with clients := replaceFirst (fun x => x.xid = p.xid) c' ifc.clients }, e')

/-- Embedding of `dhcpoffer` (dhclient.c:2007-2139). -/
def dhcpoffer (ctx : Ctx) (p : Packet) (ifc : Iface) (e : Eff) : Iface × Eff :=
  runHandler dhcpofferBody (fun c => c.state = DhcpState.S_SELECTING) ctx p ifc e

/-- Embedding of `dhcpack` (dhclient.c:1334-1503). -/
def dhcpack (ctx : Ctx) (p : Packet) (ifc : Iface) (e : Eff) : Iface × Eff :=
  runHandler dhcpackBody (fun _ => true) ctx p ifc e

/-- Embedding of `dhcpnak` (dhclient.c:2267-2340). -/
def dhcpnak (ctx : Ctx) (p : Packet) (ifc : Iface) (e : Eff) : Iface × Eff :=
  runHandler dhcpnakBody (fun _ => true) ctx p ifc e

/-! ## Release -/

/-- Embedding of `send_release` (dhclient.c:2919-2995).  The source dereferences
`client->active` unconditionally (its caller `do_release` guards it).  The
lease's three time fields are collapsed to the current time *before* the
store write (lines 2939-2943); if the write or fsync fails the function logs
and returns without sending the RELEASE (lines 2944-2947).  `writeOk` models
the success of the `fprintf`/`fflush`/`fsync` sequence; a static lease is
skipped by `write_client_lease` and reported as success (line 3978). -/
def send_release (ctx : Ctx) (c : ClientState) (writeOk : Bool) (e : Eff) : ClientState × Eff :=
  match c.active with
  | none => (c, e)
  | some a =>
    let a' := { a with expiry := ctx.cur_sec, renewal := ctx.cur_sec, rebind := ctx.cur_sec }
    let c := { c with active := some a' }
    let we := write_client_lease a' true e
    let e := we.1
    -- the record write refreshes last_write unconditionally (dhclient.c:4084),
    -- before the fsync result is examined — also when the write fails
    let c := if we.2 then { c with last_write := ctx.cur_sec } else c
    let ok := if a'.is_static then true else writeOk
    if !ok then
      (c, e)
    else
      (c, e.emit (Event.sendPacket PacketKind.RELEASE))

/-! ## The append-write counter (claim C8) -/

/-- Iterate the append-mode path of `write_client_lease` on a non-static
lease `n` times from the given counter value, returning the final counter and
the number of store rewrites triggered. -/
def runWrites (l : ClientLease) (counter : Nat) : Nat → Nat × Nat
  | 0 => (counter, 0)
  | n + 1 =>
    let (e', _) := write_client_lease l false { leases_written := counter }
    let triggered := decide (Event.rewriteStore ∈ e'.trace)
    let (final, k) := runWrites l e'.leases_written n
    (final, k + if triggered then 1 else 0)

/-! ## Derived forms of the ACK time computation

On every reachable call the three option values are 32-bit reads, far below
the `TIME_MAX`-derived guards in `ackComputeTimes`; under those bounds the
computation collapses to the following four formulas (proved in
`ackComputeTimes_eq` below). -/

/-- The renewal default: `L/2 + 1` when the option was absent or zero
(dhclient.c:1445-1446). -/
def ackR0 (l r : Nat) : Nat := if r = 0 then l / 2 + 1 else r

/-- The renewal jitter (dhclient.c:1453-1454). -/
def ackR1 (r0 rand : Nat) : Nat := (r0 * 3 + 3) / 4 + (rand % r0 + 3) / 4

/-- The rebind default: `L*7/8` when the option was absent or zero
(dhclient.c:1473-1474). -/
def ackB0 (l b : Nat) : Nat := if b = 0 then l * 7 / 8 else b

/-- The renewal clamp below the rebind time (dhclient.c:1484-1485). -/
def ackR2 (r1 b0 : Nat) : Nat := if r1 > b0 then b0 * 3 / 4 else r1

/-- The `destroy_client_lease` calls recorded in a trace. -/
def destroyEvents (tr : List Event) : List Event :=
  tr.filter fun ev =>
    match ev with
    | Event.destroyLease _ => true
    | _ => false

/-! ## Concrete example inputs for the counterexamples and witnesses -/

/-- A plain client configuration (no required options, empty reject list). -/
def exCfg : ClientConfig :=
  { initial_interval := 10, backoff_cutoff := 120, timeout := 60,
    reboot_timeout := 10, select_interval := 5, retry_interval := 300,
    required_options := [], reject_list := [] }

/-- A DHCPACK carrying lease-time 1000 and rebind-time 5000 (renewal absent). -/
def exAckPkt : Packet :=
  { xid := 7, hlen := 6, chaddr := [2, 0, 0, 0, 0, 10], yiaddr := 3232235777,
    client_addr := 3232235521, packet_type := 5, leaseTimeOpt := some 1000,
    rebindOpt := some 5000 }

/-- A client in REQUESTING with transaction id 7. -/
def exReqClient : ClientState :=
  { xid := 7, state := DhcpState.S_REQUESTING, config := exCfg }

/-- The interface holding `exReqClient`, hardware address matching `exAckPkt`. -/
def exIface : Iface := { hwAddr := [2, 0, 0, 0, 0, 10], clients := [exReqClient] }

/-- The lease committed by `dhcpack exCtx exAckPkt exIface {}`. -/
def exCommitted : ClientLease :=
  { address := 3232235777, leaseTimeOpt := some 1000, renewalOpt := none,
    rebindOpt := some 5000, optionCodes := [], expiry := 1000, renewal := 376,
    rebind := 5000 }

/-- Time zero. -/
def exCtx : Ctx := { cur_sec := 0 }

/-- A static fallback lease. -/
def exStaticLease : ClientLease :=
  { address := 42, leaseTimeOpt := none, renewalOpt := none, rebindOpt := none,
    optionCodes := [], expiry := 500, renewal := 100, rebind := 200,
    is_static := true }

/-- A client in RENEWING whose active lease is the static fallback. -/
def exRenewClient : ClientState :=
  { xid := 9, state := DhcpState.S_RENEWING, active := some exStaticLease,
    config := exCfg }

/-- A DHCPNAK matching `exRenewClient`. -/
def exNakPkt : Packet :=
  { xid := 9, hlen := 6, chaddr := [2, 0, 0, 0, 0, 10], yiaddr := 0,
    client_addr := 3232235521 }

/-- The interface holding `exRenewClient`. -/
def exIface6 : Iface := { hwAddr := [2, 0, 0, 0, 0, 10], clients := [exRenewClient] }

/-- A BOOTP offered lease as `dhcpoffer` records it: fresh from
`packet_to_lease` (all time fields zero) with `is_bootp` set. -/
def exBootpLease : ClientLease := { packet_to_lease exNakPkt with is_bootp := true }

/-- A client in SELECTING holding only the BOOTP offer. -/
def exSelClient : ClientState :=
  { xid := 9, state := DhcpState.S_SELECTING, offered_leases := [exBootpLease],
    config := exCfg }

/-- A plain dynamic lease for the lease-store write counter runs. -/
def exPlainLease : ClientLease :=
  { address := 1, leaseTimeOpt := none, renewalOpt := none, rebindOpt := none,
    optionCodes := [] }

/-- A dynamic active lease about to be released. -/
def exDynLease9 : ClientLease :=
  { address := 42, leaseTimeOpt := none, renewalOpt := none, rebindOpt := none,
    optionCodes := [], expiry := 500, renewal := 100, rebind := 200 }

/-- A bound client holding `exDynLease9`. -/
def exBoundClient : ClientState :=
  { xid := 3, state := DhcpState.S_BOUND, active := some exDynLease9, config := exCfg }

/-- The `send_release` time context. -/
def exCtx9 : Ctx := { cur_sec := 100 }

/-- The lease committed by `state_selecting exCtx exSelClient {}` (the BOOTP
path with made-up time fields). -/
def exBootpCommitted : ClientLease :=
  { exBootpLease with expiry := 12000, renewal := 8000, rebind := 10000 }

/-- A client about to commit (`new` set) whose active lease is the static
fallback: the `claim_C6` witness instance. -/
def exC6Client : ClientState :=
  { xid := 1, state := DhcpState.S_RENEWING, active := some exStaticLease,
    new := some exPlainLease, leases := [], config := exCfg }

/-- A BOOTP-only reply (no DHCP message type option). -/
def exOfferPkt : Packet :=
  { xid := 9, hlen := 6, chaddr := [2, 0, 0, 0, 0, 10], yiaddr := 1234,
    client_addr := 5, packet_type := 0 }

/-- A freshly discovering client (SELECTING, empty offer list, selection
window still open at time 0). -/
def exSelClient2 : ClientState :=
  { xid := 9, state := DhcpState.S_SELECTING, first_sending := 100, config := exCfg }

/-! ## Helper lemmas -/

theorem satAdd_mono {a b : Nat} (cur : Nat) (h : a ≤ b) : satAdd a cur ≤ satAdd b cur := by
  unfold satAdd
  split <;> split <;> omega

theorem satAdd_le (a cur : Nat) (h : a + cur ≤ TIME_MAX) : satAdd a cur = a + cur := by
  unfold satAdd
  split <;> omega

theorem ack_clamp_resolve (r1 b0 : Nat) (h : b0 ≤ TIME_MAX / 3) :
    (if r1 > b0 then if b0 ≤ TIME_MAX / 3 then b0 * 3 / 4 else b0 / 4 * 3 else r1) =
      ackR2 r1 b0 := by
  unfold ackR2
  rw [if_pos h]

/-- Under 32-bit bounds on the option values — which hold on every reachable
call, since the values come from `getULong` — the `TIME_MAX` guards inside
`ackComputeTimes` all resolve, leaving the four formulas `ackR0`/`ackR1`/
`ackB0`/`ackR2`. -/
theorem ackComputeTimes_eq (l : Nat) (R B : Option Nat) (rand cur : Nat)
    (hl : 0 < l) (hl32 : l < 2 ^ 32) (hR : R.getD 0 < 2 ^ 32) (hB : B.getD 0 < 2 ^ 32) :
    ackComputeTimes (some l) R B rand cur =
      some { expiry := satAdd l cur
             renewal := satAdd (ackR2 (ackR1 (ackR0 l (R.getD 0)) rand) (ackB0 l (B.getD 0))) cur
             rebind := satAdd (ackB0 l (B.getD 0)) cur } := by
  have hbig : (2 ^ 32 : Nat) ≤ TIME_MAX / 3 - 3 := by decide
  have hbig7 : (2 ^ 32 : Nat) ≤ TIME_MAX / 7 := by decide
  have hbig3 : (2 ^ 32 : Nat) ≤ TIME_MAX / 3 := by decide
  have hr0 : ackR0 l (R.getD 0) < 2 ^ 32 := by
    unfold ackR0; split <;> omega
  have hb0 : ackB0 l (B.getD 0) < 2 ^ 32 := by
    unfold ackB0; split
    · have : l * 7 / 8 ≤ l := by
        calc l * 7 / 8 ≤ l * 8 / 8 := Nat.div_le_div_right (by omega)
        _ = l := Nat.mul_div_cancel l (by norm_num)
      omega
    · omega
  simp only [ackComputeTimes, Option.getD_some]
  rw [if_neg (by omega : ¬ l = 0)]
  rw [if_pos (by unfold ackR0 at hr0; split <;> omega : _ ≤ TIME_MAX / 3 - 3)]
  rw [if_pos (by omega : l ≤ TIME_MAX / 7)]
  simp only [ackR0, ackR1, ackB0] at hb0 ⊢
  rw [ack_clamp_resolve _ _ (by omega)]

theorem bind_lease_success_active (ctx : Ctx) (c : ClientState) (e : Eff) (n : ClientLease)
    (hn : c.new = some n) (hs : e.script.headD 0 = 0) :
    (bind_lease ctx c e).1.active = some n ∧
      (bind_lease ctx c e).1.state = DhcpState.S_BOUND := by
  unfold bind_lease
  rw [hn]
  simp only [Eff.runScript, hs]
  simp only [ne_eq, not_true_eq_false, if_neg, ite_false, not_false_eq_true]
  all_goals simp_all

theorem state_selecting_bootp_commit (ctx : Ctx) (c : ClientState) (e : Eff) (pl : ClientLease)
    (hof : c.offered_leases = [pl]) (hb : pl.is_bootp = true)
    (hs : e.script.headD 0 = 0) :
    (state_selecting ctx c e).1.active =
        some { pl with expiry := ctx.cur_sec + 12000
                       renewal := pl.renewal + (ctx.cur_sec + 8000)
                       rebind := pl.rebind + (ctx.cur_sec + 10000) } ∧
      (state_selecting ctx c e).1.state = DhcpState.S_BOUND := by
  unfold state_selecting
  rw [hof]
  simp only [List.head?, List.tail, List.map, Eff.emitAll, Eff.emit, hb, if_pos]
  exact bind_lease_success_active ctx _ _ _ rfl hs

theorem ackR2_le_rebind (r1 b0 : Nat) : ackR2 r1 b0 ≤ b0 := by
  unfold ackR2
  split
  · calc b0 * 3 / 4 ≤ b0 * 4 / 4 := Nat.div_le_div_right (by omega)
    _ = b0 := Nat.mul_div_cancel b0 (by norm_num)
  · omega

theorem ackB0_le_expiry (l b : Nat) (h : b ≤ l) : ackB0 l b ≤ l := by
  unfold ackB0
  split
  · calc l * 7 / 8 ≤ l * 8 / 8 := Nat.div_le_div_right (by omega)
    _ = l := Nat.mul_div_cancel l (by norm_num)
  · exact h

/-! ## Claim C1 -/

/-- Claim C1, counterexample.  The claim asserts `renewal ≤ rebind ≤ expiry` on
every committed lease for every combination of server-provided option values.
It is false: a DHCPACK with lease-time 1000 and rebind-time 5000 (a rebind
option exceeding the lease time, which `dhcpack` never clamps) commits an
active lease with `rebind = 5000 > expiry = 1000`. -/
theorem claim_C1_counterexample :
    ((dhcpack exCtx exAckPkt exIface {}).1.clients.head?.bind (fun c => c.active)) =
        some exCommitted
      ∧ ¬ leaseChainOK { expiry := exCommitted.expiry, renewal := exCommitted.renewal,
                         rebind := exCommitted.rebind } := by
  constructor
  · rfl
  · decide

/-- Claim C1, amended.  On the ACK path, every committed lease satisfies
`renewal ≤ rebind`; the full chain `renewal ≤ rebind ≤ expiry` additionally
holds whenever the server-supplied rebind option is absent, zero, or at most
the lease time (the counterexample shows it fails when the rebind option
exceeds the lease time).  On the BOOTP path of `state_selecting` the committed
made-up times always satisfy the chain. -/
theorem claim_C1 (l : Nat) (R B : Option Nat) (rand cur : Nat) (t : AckTimes)
    (ctx : Ctx) (c : ClientState) (e : Eff) (pl la : ClientLease)
    (hl : 0 < l) (hl32 : l < 2 ^ 32) (hR : R.getD 0 < 2 ^ 32) (hB : B.getD 0 < 2 ^ 32)
    (hack : ackComputeTimes (some l) R B rand cur = some t)
    (hof : c.offered_leases = [pl]) (hbootp : pl.is_bootp = true)
    (hrnl : pl.renewal = 0) (hrbd : pl.rebind = 0)
    (hs : e.script.headD 0 = 0)
    (hact : (state_selecting ctx c e).1.active = some la) :
    t.renewal ≤ t.rebind
      ∧ (B.getD 0 ≤ l → leaseChainOK t)
      ∧ leaseChainOK { expiry := la.expiry, renewal := la.renewal, rebind := la.rebind } := by
  rw [ackComputeTimes_eq l R B rand cur hl hl32 hR hB] at hack
  obtain ⟨rfl⟩ : t = { expiry := satAdd l cur
                       renewal := satAdd (ackR2 (ackR1 (ackR0 l (R.getD 0)) rand)
                                            (ackB0 l (B.getD 0))) cur
                       rebind := satAdd (ackB0 l (B.getD 0)) cur } := by
    exact (Option.some.injEq _ _ ▸ hack.symm)
  refine ⟨satAdd_mono cur (ackR2_le_rebind _ _), fun hble => ⟨?_, ?_⟩, ?_⟩
  · exact satAdd_mono cur (ackR2_le_rebind _ _)
  · exact satAdd_mono cur (ackB0_le_expiry _ _ hble)
  · have h := state_selecting_bootp_commit ctx c e pl hof hbootp hs
    rw [hact] at h
    obtain ⟨hla, -⟩ := h
    obtain ⟨rfl⟩ : la = { pl with expiry := ctx.cur_sec + 12000
                                  renewal := pl.renewal + (ctx.cur_sec + 8000)
                                  rebind := pl.rebind + (ctx.cur_sec + 10000) } := by
      exact Option.some.injEq _ _ ▸ hla
    constructor
    · simp [hrnl, hrbd]
    · simp [hrnl, hrbd]

/-- Witness for `claim_C1`: lease-time 3600 with both other options absent,
`random() = 5`, `cur_time = 100` gives the triple (3700, 1453, 3250); the
BOOTP instance is `exSelClient`'s commit. -/
theorem claim_C1_witness :
    (AckTimes.mk 3700 1453 3250).renewal ≤ (AckTimes.mk 3700 1453 3250).rebind
      ∧ ((Option.none.getD 0 ≤ 3600) → leaseChainOK (AckTimes.mk 3700 1453 3250))
      ∧ leaseChainOK { expiry := exBootpCommitted.expiry,
                       renewal := exBootpCommitted.renewal,
                       rebind := exBootpCommitted.rebind } :=
  claim_C1 3600 none none 5 100 (AckTimes.mk 3700 1453 3250)
    exCtx exSelClient {} exBootpLease exBootpCommitted
    (by decide) (by decide) (by decide) (by decide) (by decide)
    rfl rfl rfl rfl rfl rfl

/-! ## Claim C2 -/

/-- Claim C2.  For every ACK whose lease-time is present and non-zero, and for
every random value, the code's time computation agrees with the spec's
step-by-step description (`ackTimesSpec`): renewal defaults to `L/2 + 1` when
absent, is jittered to `(3R+3)/4 + (rand mod R + 3)/4`, rebind defaults to
`L*7/8` when absent, the renewal is clamped to `3B/4` when it exceeds the
rebind, and the current time is added to all three fields with saturation at
`TIME_MAX`.  The hypotheses record that present options carry non-zero 32-bit
values (`getULong` reads; a present-but-zero renewal or rebind is treated by
the code as absent, which the claim's conditionals do not constrain). -/
theorem claim_C2 (l : Nat) (R B : Option Nat) (rand cur : Nat)
    (hl : 0 < l) (hl32 : l < 2 ^ 32)
    (hRz : R ≠ some 0) (hR : R.getD 0 < 2 ^ 32)
    (hBz : B ≠ some 0) (hB : B.getD 0 < 2 ^ 32) :
    ackComputeTimes (some l) R B rand cur = some (ackTimesSpec l R B rand cur) := by
  rw [ackComputeTimes_eq l R B rand cur hl hl32 hR hB]
  unfold ackTimesSpec ackR0 ackR1 ackB0 ackR2
  rcases R with _ | rv <;> rcases B with _ | bv <;>
    simp_all [Nat.mul_comm]

/-- Witness for `claim_C2`: lease-time 3600, renewal 900, rebind 3000,
`random() = 7`, `cur_time = 50`. -/
theorem claim_C2_witness :
    ackComputeTimes (some 3600) (some 900) (some 3000) 7 50 =
      some (ackTimesSpec 3600 (some 900) (some 3000) 7 50) :=
  claim_C2 3600 (some 900) (some 3000) 7 50
    (by decide) (by decide) (by decide) (by decide) (by decide) (by decide)

/-! ## Claim C3 -/

theorem runHandler_no_match (body : Ctx → Packet → ClientState → Eff → ClientState × Eff)
    (extraGuard : ClientState → Bool) (ctx : Ctx) (p : Packet) (ifc : Iface) (e : Eff)
    (h : (∀ c ∈ ifc.clients, c.xid ≠ p.xid) ∨ hwMatch ifc p = false) :
    runHandler body extraGuard ctx p ifc e = (ifc, e) := by
  unfold runHandler
  rcases h with h | h
  · have hf : ifc.clients.find? (fun c => c.xid = p.xid) = none := by
      rw [List.find?_eq_none]
      intro c hc
      simpa using h c hc
    rw [hf]
  · cases hfind : ifc.clients.find? (fun c => c.xid = p.xid) with
    | none => rfl
    | some c => simp [h]

/-- Claim C3.  An incoming OFFER, ACK or NAK whose `xid` matches no client on
the receiving interface, or whose `chaddr`/`hlen` does not match the
interface's hardware address, leaves the interface's clients and the whole
effect state (trace, streams, store counter) unchanged. -/
theorem claim_C3 (ctx : Ctx) (p : Packet) (ifc : Iface) (e : Eff)
    (h : (∀ c ∈ ifc.clients, c.xid ≠ p.xid) ∨ hwMatch ifc p = false) :
    dhcpoffer ctx p ifc e = (ifc, e)
      ∧ dhcpack ctx p ifc e = (ifc, e)
      ∧ dhcpnak ctx p ifc e = (ifc, e) :=
  ⟨runHandler_no_match _ _ ctx p ifc e h,
   runHandler_no_match _ _ ctx p ifc e h,
   runHandler_no_match _ _ ctx p ifc e h⟩

/-- Witness for `claim_C3`: a packet with transaction id 99 matches no client
of `exIface` (whose only client holds xid 7). -/
theorem claim_C3_witness :
    dhcpoffer exCtx { exAckPkt with xid := 99 } exIface {} = (exIface, {})
      ∧ dhcpack exCtx { exAckPkt with xid := 99 } exIface {} = (exIface, {})
      ∧ dhcpnak exCtx { exAckPkt with xid := 99 } exIface {} = (exIface, {}) :=
  claim_C3 exCtx { exAckPkt with xid := 99 } exIface {} (Or.inl (by decide))

/-! ## Claim C4 -/

/-- Claim C4.  A DHCPACK that reaches a client in a receptive state but whose
lease-time option is absent or evaluates to zero is rejected: the handler
leaves the active lease and the state field untouched (no commit — the
returned client differs from the input only in the tentative `new` slot and
the grown reject list), prepends the packet's source address to the reject
list, and appends to the trace exactly the cancellation of the REQUEST
retransmit timer, the reject-list addition, and a single timer arming
`state_init` half a second after the current time. -/
theorem claim_C4 (ctx : Ctx) (p : Packet) (c : ClientState) (e : Eff)
    (hst : c.state = DhcpState.S_REBOOTING ∨ c.state = DhcpState.S_REQUESTING
      ∨ c.state = DhcpState.S_RENEWING ∨ c.state = DhcpState.S_REBINDING)
    (hL : p.leaseTimeOpt.getD 0 = 0) :
    dhcpackBody ctx p c e =
      ({ c with new := some { packet_to_lease p with expiry := 0 }
                config := { c.config with
                  reject_list := p.client_addr :: c.config.reject_list } },
       { e with trace := e.trace ++
          [Event.cancelTimeout Callback.send_request,
           Event.addReject p.client_addr,
           Event.addTimeout Callback.state_init
             (halfSecondLater ctx.cur_sec ctx.cur_usec).1
             (halfSecondLater ctx.cur_sec ctx.cur_usec).2] }) := by
  unfold dhcpackBody
  rw [if_neg (by rcases hst with h | h | h | h <;> simp [h])]
  rw [if_pos hL]
  simp [Eff.emit, List.append_assoc]

/-- Witness for `claim_C4`: `exReqClient` (REQUESTING) receiving an ACK with
a zero lease-time option. -/
theorem claim_C4_witness :
    dhcpackBody { cur_sec := 10, cur_usec := 700000 }
        { exAckPkt with leaseTimeOpt := some 0, rebindOpt := none } exReqClient {} =
      ({ exReqClient with
           new := some { packet_to_lease
             { exAckPkt with leaseTimeOpt := some 0, rebindOpt := none } with expiry := 0 }
           config := { exReqClient.config with reject_list := [3232235521] } },
       { trace :=
          [Event.cancelTimeout Callback.send_request,
           Event.addReject 3232235521,
           Event.addTimeout Callback.state_init 11 200000] }) := by
  have h := claim_C4 { cur_sec := 10, cur_usec := 700000 }
    { exAckPkt with leaseTimeOpt := some 0, rebindOpt := none } exReqClient {}
    (Or.inr (Or.inl rfl)) (by decide)
  simpa using h

/-! ## Claim C5 -/

theorem discoverInterval_eff (c : ClientState) (cur : Nat) (e : Eff) :
    ((discoverInterval c cur e).2).trace = e.trace := by
  unfold discoverInterval Eff.rand
  dsimp only
  split_ifs <;> rfl

theorem jitterUsec_eff (far : Bool) (u : Nat) (e : Eff) :
    ((jitterUsec far u e).2).trace = e.trace := by
  unfold jitterUsec Eff.rand
  split_ifs <;> rfl

theorem send_discover_events (ctx : Ctx) (c : ClientState) (e : Eff)
    (h : ¬ (ctx.cur_sec - c.first_sending > c.config.timeout)) :
    (∃ i usec, (send_discover ctx c e).2.trace =
        e.trace ++ [Event.sendPacket PacketKind.DISCOVER,
                    Event.addTimeout Callback.send_discover (ctx.cur_sec + i) usec])
      ∧ (send_discover ctx c e).1.active = c.active
      ∧ (send_discover ctx c e).1.state = c.state := by
  rcases hdi : discoverInterval c ctx.cur_sec e with ⟨i, e1⟩
  have he1 : e1.trace = e.trace := by
    have hh := discoverInterval_eff c ctx.cur_sec e
    rw [hdi] at hh; exact hh
  unfold send_discover
  rw [if_neg h, hdi]
  dsimp only
  rcases hj : jitterUsec (decide (i > 1)) ctx.cur_usec
      (e1.emit (Event.sendPacket PacketKind.DISCOVER)) with ⟨usec, e2⟩
  have he2 : e2.trace = (e1.emit (Event.sendPacket PacketKind.DISCOVER)).trace := by
    have hh := jitterUsec_eff (decide (i > 1)) ctx.cur_usec
      (e1.emit (Event.sendPacket PacketKind.DISCOVER))
    rw [hj] at hh; exact hh
  refine ⟨⟨i, usec, ?_⟩, rfl, rfl⟩
  simp only [Eff.emit] at he2
  simp [Eff.emit, he2, he1, List.append_assoc]

theorem state_init_events (ctx : Ctx) (c : ClientState) (e : Eff) :
    (∃ i usec, (state_init ctx c e).2.trace =
        e.trace ++ [Event.setState DhcpState.S_SELECTING,
                    Event.sendPacket PacketKind.DISCOVER,
                    Event.addTimeout Callback.send_discover (ctx.cur_sec + i) usec])
      ∧ (state_init ctx c e).1.active = c.active
      ∧ (state_init ctx c e).1.state = DhcpState.S_SELECTING := by
  unfold state_init Eff.rand
  dsimp only
  obtain ⟨⟨i, usec, htr⟩, hact, hst⟩ :=
    send_discover_events ctx
      { c with xid := e.rng.headD 0
               requested_address := (match c.active with
                                     | some a => a.address
                                     | none => 0)
               destination := 4294967295
               state := DhcpState.S_SELECTING
               first_sending := ctx.cur_sec
               interval := c.config.initial_interval }
      (({ e with rng := e.rng.tail } : Eff).emit (Event.setState DhcpState.S_SELECTING))
      (by simp)
  refine ⟨⟨i, usec, ?_⟩, by simpa using hact, by simpa using hst⟩
  rw [htr]
  simp [Eff.emit, List.append_assoc]

theorem state_init_trace_mono (ctx : Ctx) (c : ClientState) (e : Eff) (ev : Event)
    (h : ev ∈ e.trace) : ev ∈ (state_init ctx c e).2.trace := by
  obtain ⟨⟨i, usec, htr⟩, -, -⟩ := state_init_events ctx c e
  rw [htr]
  exact List.mem_append_left _ h

theorem state_init_sends_discover (ctx : Ctx) (c : ClientState) (e : Eff) :
    Event.sendPacket PacketKind.DISCOVER ∈ (state_init ctx c e).2.trace := by
  obtain ⟨⟨i, usec, htr⟩, -, -⟩ := state_init_events ctx c e
  rw [htr]
  simp

theorem state_init_active (ctx : Ctx) (c : ClientState) (e : Eff) :
    (state_init ctx c e).1.active = c.active :=
  (state_init_events ctx c e).2.1

theorem state_init_state (ctx : Ctx) (c : ClientState) (e : Eff) :
    (state_init ctx c e).1.state = DhcpState.S_SELECTING :=
  (state_init_events ctx c e).2.2

/-- Claim C5.  A DHCPNAK that reaches a client in REQUESTING, REBOOTING,
RENEWING or REBINDING with an active lease runs the EXPIRE configurator hook,
destroys the active lease (the active slot is cleared), cancels the pending
`send_request` timer, and transitions to INIT — `state_init` runs at once,
records the INIT entry, emits a fresh DISCOVER and leaves the machine in
SELECTING. -/
theorem claim_C5 (ctx : Ctx) (p : Packet) (c : ClientState) (e : Eff) (a : ClientLease)
    (hst : c.state = DhcpState.S_REBOOTING ∨ c.state = DhcpState.S_REQUESTING
      ∨ c.state = DhcpState.S_RENEWING ∨ c.state = DhcpState.S_REBINDING)
    (ha : c.active = some a) :
    (dhcpnakBody ctx p c e).1.active = none
      ∧ (dhcpnakBody ctx p c e).1.state = DhcpState.S_SELECTING
      ∧ Event.script ScriptReason.EXPIRE ∈ (dhcpnakBody ctx p c e).2.trace
      ∧ Event.destroyLease a ∈ (dhcpnakBody ctx p c e).2.trace
      ∧ Event.cancelTimeout Callback.send_request ∈ (dhcpnakBody ctx p c e).2.trace
      ∧ Event.setState DhcpState.S_INIT ∈ (dhcpnakBody ctx p c e).2.trace
      ∧ Event.sendPacket PacketKind.DISCOVER ∈ (dhcpnakBody ctx p c e).2.trace := by
  unfold dhcpnakBody
  rw [if_neg (by rcases hst with h | h | h | h <;> simp [h])]
  rw [ha]
  dsimp only [Eff.runScript, Eff.emit]
  refine ⟨by simp [state_init_active], state_init_state _ _ _,
    state_init_trace_mono _ _ _ _ (by simp),
    state_init_trace_mono _ _ _ _ (by simp),
    state_init_trace_mono _ _ _ _ (by simp),
    state_init_trace_mono _ _ _ _ (by simp),
    state_init_sends_discover _ _ _⟩

/-- Witness for `claim_C5`: `exRenewClient` (RENEWING, active static lease)
receiving `exNakPkt`. -/
theorem claim_C5_witness :
    (dhcpnakBody exCtx exNakPkt exRenewClient {}).1.active = none
      ∧ (dhcpnakBody exCtx exNakPkt exRenewClient {}).1.state = DhcpState.S_SELECTING
      ∧ Event.script ScriptReason.EXPIRE ∈ (dhcpnakBody exCtx exNakPkt exRenewClient {}).2.trace
      ∧ Event.destroyLease exStaticLease ∈ (dhcpnakBody exCtx exNakPkt exRenewClient {}).2.trace
      ∧ Event.cancelTimeout Callback.send_request
          ∈ (dhcpnakBody exCtx exNakPkt exRenewClient {}).2.trace
      ∧ Event.setState DhcpState.S_INIT ∈ (dhcpnakBody exCtx exNakPkt exRenewClient {}).2.trace
      ∧ Event.sendPacket PacketKind.DISCOVER
          ∈ (dhcpnakBody exCtx exNakPkt exRenewClient {}).2.trace :=
  claim_C5 exCtx exNakPkt exRenewClient {} exStaticLease (Or.inr (Or.inr (Or.inl rfl))) rfl

/-! ## Claim C6 -/

theorem discard_duplicate_no_match (l : ClientLease) (ls : List ClientLease)
    (h : ∀ x ∈ ls, ¬(x.is_static = l.is_static ∧ x.address = l.address)) :
    discard_duplicate l ls = (ls, []) := by
  induction ls with
  | nil => rfl
  | cons x rest ih =>
    unfold discard_duplicate
    rw [if_neg (h x (List.mem_cons_self x rest))]
    rw [ih (fun y hy => h y (List.mem_cons_of_mem x hy))]

theorem destroyEvents_append (t1 t2 : List Event) :
    destroyEvents (t1 ++ t2) = destroyEvents t1 ++ destroyEvents t2 := by
  simp [destroyEvents, List.filter_append]

theorem destroyEvents_nil : destroyEvents [] = [] := rfl

theorem destroyEvents_cons_script (r : ScriptReason) (tr : List Event) :
    destroyEvents (Event.script r :: tr) = destroyEvents tr := by
  simp [destroyEvents]

theorem destroyEvents_cons_addTimeout (cb : Callback) (s u : Nat) (tr : List Event) :
    destroyEvents (Event.addTimeout cb s u :: tr) = destroyEvents tr := by
  simp [destroyEvents]

theorem destroyEvents_cons_setState (s : DhcpState) (tr : List Event) :
    destroyEvents (Event.setState s :: tr) = destroyEvents tr := by
  simp [destroyEvents]

theorem write_client_lease_destroyEvents (l : ClientLease) (rw : Bool) (e : Eff) :
    destroyEvents ((write_client_lease l rw e).1.trace) = destroyEvents e.trace := by
  unfold write_client_lease rewrite_client_leases Eff.emit
  split_ifs <;> simp [destroyEvents, List.filter_append]

/-- Claim C6, counterexample.  The claim says a lease marked `is_static` is
never deallocated and is reinserted at the tail of `leases` on eviction from
`active`.  `dhcpnak`, however, destroys the active lease unconditionally
(dhclient.c:2322): a matching NAK received in RENEWING with a static active
lease deallocates it — the lease ends up neither active nor in `leases`. -/
theorem claim_C6_counterexample :
    exStaticLease.is_static = true
      ∧ Event.destroyLease exStaticLease ∈ (dhcpnak exCtx exNakPkt exIface6 {}).2.trace
      ∧ (dhcpnak exCtx exNakPkt exIface6 {}).1.clients.map (fun c => (c.active, c.leases))
          = [(none, [])] := by
  refine ⟨rfl, ?_, rfl⟩
  decide

/-- Claim C6, amended.  On eviction from the active slot by `bind_lease`
(dhclient.c:1560-1569) a static lease is indeed reinserted at the tail of
`leases` and not deallocated (assuming `leases` holds no same-address static
duplicate, which `add_to_tail`'s `discard_duplicate` would destroy): the
commit appends it at the tail, promotes the tentative lease, and records no
`destroy_client_lease` call.  `dhcpnak`, by contrast, destroys the active
lease even when it is static (see `claim_C6_counterexample`). -/
theorem claim_C6 (ctx : Ctx) (c : ClientState) (e : Eff) (n a : ClientLease)
    (hn : c.new = some n) (ha : c.active = some a) (hstat : a.is_static = true)
    (hs : e.script.headD 0 = 0)
    (hnodup : ∀ x ∈ c.leases, ¬(x.is_static = a.is_static ∧ x.address = a.address)) :
    (bind_lease ctx c e).1.leases = c.leases ++ [a]
      ∧ (bind_lease ctx c e).1.active = some n
      ∧ destroyEvents ((bind_lease ctx c e).2.trace) = destroyEvents e.trace := by
  have hdd : discard_duplicate a c.leases = (c.leases, []) :=
    discard_duplicate_no_match a c.leases hnodup
  unfold bind_lease
  rw [hn]
  simp only [Eff.runScript, hs]
  simp only [ne_eq, not_true_eq_false, if_neg, ite_false, not_false_eq_true]
  simp only [ha, hstat, add_to_tail, hdd, if_true]
  split_ifs with h1 h2 <;>
    refine ⟨?_, ?_, ?_⟩ <;>
      simp_all [Eff.emit, Eff.emitAll, jitterUsec_eff, destroyEvents_append,
        destroyEvents_nil, destroyEvents_cons_script, destroyEvents_cons_addTimeout,
        destroyEvents_cons_setState, write_client_lease_destroyEvents]

/-- Witness for `claim_C6`: `exC6Client` committing with a successful
configurator run. -/
theorem claim_C6_witness :
    (bind_lease exCtx exC6Client { script := [0] }).1.leases = [] ++ [exStaticLease]
      ∧ (bind_lease exCtx exC6Client { script := [0] }).1.active = some exPlainLease
      ∧ destroyEvents ((bind_lease exCtx exC6Client { script := [0] }).2.trace) =
          destroyEvents (Eff.trace { script := [0] }) :=
  claim_C6 exCtx exC6Client { script := [0] } exPlainLease exStaticLease
    rfl rfl rfl rfl (by simp [exC6Client])

/-! ## Claim C7 -/

/-- Claim C7, counterexample.  The claim maps the made-up 12000/8000/10000
second offsets to renewal/rebind/expiry.  The source (dhclient.c:1301-1305)
maps them to expiry/renewal/rebind: the committed BOOTP lease at time 0 has
`expiry = 12000`, `renewal = 8000`, `rebind = 10000`, not `renewal = 12000`,
`rebind = 8000`, `expiry = 10000`. -/
theorem claim_C7_counterexample :
    ((state_selecting exCtx exSelClient {}).1.active).map ClientLease.expiry = some 12000
      ∧ ((state_selecting exCtx exSelClient {}).1.active).map ClientLease.renewal = some 8000
      ∧ ((state_selecting exCtx exSelClient {}).1.active).map ClientLease.rebind = some 10000
      ∧ ((state_selecting exCtx exSelClient {}).1.active).map ClientLease.renewal ≠ some 12000
      ∧ ((state_selecting exCtx exSelClient {}).1.active).map ClientLease.rebind ≠ some 8000
      ∧ ((state_selecting exCtx exSelClient {}).1.active).map ClientLease.expiry ≠ some 10000 := by
  refine ⟨rfl, rfl, rfl, ?_, ?_, ?_⟩ <;> decide

/-- Claim C7, amended.  A BOOTP-only reply (BOOTREPLY without a DHCP
message-type option) accepted in SELECTING is recorded with `is_bootp` set
(dhclient.c:2097-2098); when `state_selecting` takes such an offer it makes
up time fields of 12000, 8000 and 10000 seconds from the current time for the
*expiry*, *renewal* and *rebind* respectively (added to the lease's
zero-initialized renewal/rebind fields, dhclient.c:1301-1305) and commits the
lease (BOUND). -/
theorem claim_C7 (ctx : Ctx) (p : Packet) (c c2 : ClientState) (e e2 : Eff) (pl : ClientLease)
    (hbootp_p : p.packet_type = 0)
    (hreq : c.config.required_options.filter (fun code => !p.optionCodes.contains code) = [])
    (hdup : c.offered_leases.any (fun l => l.address = p.yiaddr) = false)
    (haddr : ¬ (packet_to_lease p).address = c.requested_address)
    (hlate : ¬ (c.first_sending + c.config.select_interval ≤ ctx.cur_sec))
    (hof : c2.offered_leases = [pl]) (hb : pl.is_bootp = true)
    (hrnl : pl.renewal = 0) (hrbd : pl.rebind = 0)
    (hs : e2.script.headD 0 = 0) :
    (dhcpofferBody ctx p c e).1.offered_leases =
        c.offered_leases ++ [{ packet_to_lease p with is_bootp := true }]
      ∧ (state_selecting ctx c2 e2).1.active =
          some { pl with expiry := ctx.cur_sec + 12000
                         renewal := ctx.cur_sec + 8000
                         rebind := ctx.cur_sec + 10000 }
      ∧ (state_selecting ctx c2 e2).1.state = DhcpState.S_BOUND := by
  refine ⟨?_, ?_, ?_⟩
  · unfold dhcpofferBody
    rw [if_neg (fun hcon => hcon hreq)]
    simp [hdup, hbootp_p, haddr, hlate]
  · have h := (state_selecting_bootp_commit ctx c2 e2 pl hof hb hs).1
    rw [h, hrnl, hrbd]
    simp
  · exact (state_selecting_bootp_commit ctx c2 e2 pl hof hb hs).2

/-- Witness for `claim_C7`: `exOfferPkt` arriving at `exSelClient2`, and the
commit of `exSelClient`'s BOOTP offer. -/
theorem claim_C7_witness :
    (dhcpofferBody exCtx exOfferPkt exSelClient2 {}).1.offered_leases =
        exSelClient2.offered_leases ++ [{ packet_to_lease exOfferPkt with is_bootp := true }]
      ∧ (state_selecting exCtx exSelClient {}).1.active =
          some { exBootpLease with expiry := exCtx.cur_sec + 12000
                                   renewal := exCtx.cur_sec + 8000
                                   rebind := exCtx.cur_sec + 10000 }
      ∧ (state_selecting exCtx exSelClient {}).1.state = DhcpState.S_BOUND :=
  claim_C7 exCtx exOfferPkt exSelClient2 exSelClient {} {} exBootpLease
    rfl rfl rfl (by decide) (by decide) rfl rfl rfl rfl rfl

/-! ## Claim C8 -/

theorem runWrites_closed_form (l : ClientLease) :
    ∀ (n c : Nat), c ≤ 21 → runWrites l c n = ((c + n) % 22, (c + n) / 22) := by
  intro n
  induction n with
  | zero =>
    intro c hc
    simp [runWrites, Nat.mod_eq_of_lt (by omega : c < 22), Nat.div_eq_of_lt (by omega : c < 22)]
  | succ n ih =>
    intro c hc
    by_cases h : 20 < c
    · have hc21 : c = 21 := by omega
      subst hc21
      by_cases hst : l.is_static
      · simp [runWrites, write_client_lease, rewrite_client_leases, Eff.emit, hst,
          ih 0 (by omega)]
        refine ⟨by omega, by omega⟩
      · simp [runWrites, write_client_lease, rewrite_client_leases, Eff.emit, hst,
          ih 0 (by omega)]
        refine ⟨by omega, by omega⟩
    · by_cases hst : l.is_static
      · simp [runWrites, write_client_lease, rewrite_client_leases, Eff.emit, hst,
          if_neg h, ih (c + 1) (by omega)]
        refine ⟨by omega, by omega⟩
      · simp [runWrites, write_client_lease, rewrite_client_leases, Eff.emit, hst,
          if_neg h, ih (c + 1) (by omega)]
        refine ⟨by omega, by omega⟩

/-- Claim C8, counterexample.  The claim says a full rewrite is triggered after
every 20 append-mode writes.  The counter test is `leases_written++ > 20`
(post-increment, dhclient.c:3970): the first 21 append-mode writes from a
fresh counter trigger no rewrite at all; the first rewrite happens on the
22nd write. -/
theorem claim_C8_counterexample :
    (runWrites exPlainLease 0 20).2 = 0
      ∧ (runWrites exPlainLease 0 21).2 = 0
      ∧ (runWrites exPlainLease 0 22).2 = 1 := by
  refine ⟨?_, ?_, ?_⟩ <;> decide

/-- Claim C8, amended.  Starting from a fresh counter, `n` append-mode calls
to `write_client_lease` trigger exactly `n / 22` full rewrites and leave the
counter at `n % 22`: the store is rewritten (and the counter reset to zero)
on every 22nd append-mode write, because the counter must reach 21 before
the post-increment test `leases_written++ > 20` fires. -/
theorem claim_C8 (l : ClientLease) (n : Nat) :
    runWrites l 0 n = (n % 22, n / 22) := by
  simpa using runWrites_closed_form l n 0 (by omega)

/-! ## Claim C9 -/

/-- Claim C9, counterexample.  The claim says a failed lease-store write during
RELEASE leaves in-memory state — including the active lease's time fields —
unchanged.  In the source the three time fields are collapsed to the current
time *before* the write (dhclient.c:2939-2943), so after a failed write the
active lease is already mutated (the RELEASE itself is indeed not sent). -/
theorem claim_C9_counterexample :
    (send_release exCtx9 exBoundClient false {}).1.active =
        some { exDynLease9 with expiry := 100, renewal := 100, rebind := 100 }
      ∧ (send_release exCtx9 exBoundClient false {}).1.active ≠ some exDynLease9
      ∧ Event.sendPacket PacketKind.RELEASE ∉ (send_release exCtx9 exBoundClient false {}).2.trace := by
  refine ⟨rfl, by decide, by decide⟩

/-- Claim C9, amended.  When the lease-store write or fsync fails while
processing a RELEASE of a non-static active lease, `send_release` returns
without sending the RELEASE packet (the failure having been logged), but the
active lease's expiry, renewal and rebind have already been collapsed to the
current time; nothing else of the client state changes and the only recorded
store action is the attempted record write, which also refreshes
`last_write` to the current time (dhclient.c:4084, reached before the fsync
result is examined). -/
theorem claim_C9 (ctx : Ctx) (c : ClientState) (e : Eff) (a : ClientLease)
    (ha : c.active = some a) (hstat : a.is_static = false) :
    send_release ctx c false e =
      ({ c with active :=
            some { a with expiry := ctx.cur_sec
                          renewal := ctx.cur_sec
                          rebind := ctx.cur_sec }
                last_write := ctx.cur_sec },
       { e with trace := e.trace ++ [Event.writeLease a.address] }) := by
  unfold send_release
  rw [ha]
  dsimp only
  simp [write_client_lease, Eff.emit, hstat]

/-- Witness for `claim_C9`: `exBoundClient` releasing `exDynLease9` at time
100 with a failing write. -/
theorem claim_C9_witness :
    send_release exCtx9 exBoundClient false {} =
      ({ exBoundClient with
           active := some { exDynLease9 with
             expiry := 100, renewal := 100, rebind := 100 }
           last_write := 100 },
       { trace := [Event.writeLease 42] }) :=
  claim_C9 exCtx9 exBoundClient {} exDynLease9 rfl rfl

/-! ## Claim C10 -/

/-- Claim C10, counterexample.  The claim says that besides destroying the
tentative lease (and scheduling the return to INIT) everything else is left
unchanged.  The decline path, however, also records the declined lease's
address as the client's requested address: `make_decline` passes
`&lease->address` into `make_client_options`, which stores it
(dhclient.c:3457 via 3168).  At a concrete input the field changes from 0 to
the tentative lease's address 1. -/
theorem claim_C10_counterexample :
    (bind_lease exCtx exC6Client { script := [1] }).1.requested_address = 1
      ∧ exC6Client.requested_address = 0
      ∧ (bind_lease exCtx exC6Client { script := [1] }).1.requested_address ≠
          exC6Client.requested_address := by
  refine ⟨rfl, rfl, by decide⟩

/-- Claim C10, amended.  When the configurator exits non-zero during commit and
one-try mode is off, `bind_lease` sends a DECLINE, destroys the tentative lease and
schedules `state_init` at `now + decline_wait_time` — and nothing else
changes: the returned client equals the input with `new` cleared and the
declined address recorded as the requested address by `make_decline`
(dhclient.c:3457 via 3168); state field, active lease and `leases` are
untouched, and the appended trace contains no store write. -/
theorem claim_C10 (ctx : Ctx) (c : ClientState) (e : Eff) (n : ClientLease)
    (hn : c.new = some n) (hs : e.script.headD 0 ≠ 0) (ho : ctx.onetry = false) :
    bind_lease ctx c e =
      ({ c with new := none, requested_address := n.address },
       { e with script := e.script.tail,
                trace := e.trace ++ [Event.script (bindReason c.state),
                                     Event.sendPacket PacketKind.DECLINE,
                                     Event.destroyLease n,
                                     Event.addTimeout Callback.state_init
                                       (ctx.cur_sec + ctx.decline_wait_time) ctx.cur_usec] }) := by
  unfold bind_lease
  rw [hn]
  simp only [Eff.runScript]
  rw [if_pos hs]
  simp [ho, Eff.emit, List.append_assoc]

/-- Witness for `claim_C10`: `exC6Client` (RENEWING, tentative lease set)
with a configurator exiting 1. -/
theorem claim_C10_witness :
    bind_lease exCtx exC6Client { script := [1] } =
      ({ exC6Client with new := none, requested_address := 1 },
       { script := [],
         trace := [Event.script ScriptReason.RENEW,
                   Event.sendPacket PacketKind.DECLINE,
                   Event.destroyLease exPlainLease,
                   Event.addTimeout Callback.state_init 10 0] }) :=
  claim_C10 exCtx exC6Client { script := [1] } exPlainLease rfl (by decide) rfl
